import Mathlib

/-!
Shallow embedding of the HOPP battery-dispatch configuration resolver
(`hybrid/dispatch/hybrid_dispatch_options.py`, class `HybridDispatchOptions`)
and of the parts of `hybrid/csp_source.py` (class `CspPlant`) that the
claims concern: the required-keys check of `CspPlant.__init__`, the
granularity check of `CspPlant.set_weather`, and
`CspPlant.seconds_since_newyear`.

Python objects whose attributes are manipulated dynamically through
`hasattr` / `getattr` / `setattr` are modelled as association lists from
attribute name to a dynamically typed value `PyVal`; Python's runtime
`type(...)` is modelled by the tag `pyType` (note that in Python
`type(True) == bool` and `type(1) == int` are distinct, which the tags
preserve). Exceptions are modelled with `Except`.
-/

namespace HOPP

/-- Dynamically typed Python value, covering the runtime types that occur
among the attributes of `HybridDispatchOptions`: `str`, `int`, `bool`
and `dict`. -/
inductive PyVal where
  | vStr (s : String)
  | vInt (n : Int)
  | vBool (b : Bool)
  | vDict (d : List (String × Int))
deriving DecidableEq

/-- Runtime type tag, the model of Python's `type(...)`. -/
inductive PyType where
  | str
  | int
  | bool
  | dict
deriving DecidableEq

/-- Model of Python's `type(v)`. -/
def pyType : PyVal → PyType
  | .vStr _ => .str
  | .vInt _ => .int
  | .vBool _ => .bool
  | .vDict _ => .dict

/-- Attribute store of a Python object: list of (attribute name, value). -/
def Attrs : Type := List (String × PyVal)

/-- Model of `getattr(self, k)` (or of `hasattr` via `Option.isSome`). -/
def getattrA : List (String × PyVal) → String → Option PyVal
  | [], _ => none
  | (k', v) :: rest, k => if k' = k then some v else getattrA rest k

/-- Model of `setattr(self, k, v)`: replaces the value stored under an
existing attribute name; adds nothing when the name is absent. -/
def setattrA : List (String × PyVal) → String → PyVal → List (String × PyVal)
  | [], _, _ => []
  | (k', v') :: rest, k, v =>
    if k' = k then (k', v) :: setattrA rest k v else (k', v') :: setattrA rest k v

/-- Exceptions raised by `HybridDispatchOptions.__init__`. -/
inductive PyError where
  /-- `NameError("'k' is not an attribute in HybridDispatchOptions")`. -/
  | nameError (key : String)
  /-- `ValueError("'k' is the wrong data type.")`. -/
  | typeValueError (key : String)
  /-- `ValueError("'name' is not currently a battery dispatch class.")`. -/
  | dispatchValueError (name : String)
deriving DecidableEq

/-- The specification's `ConfigurationError` taxonomy class: unknown option
key (`NameError`) or type mismatch (`ValueError` from the option loop). -/
def isConfigurationError : PyError → Bool
  | .nameError _ => true
  | .typeValueError _ => true
  | .dispatchValueError _ => false

/-- The specification's `UnsupportedFormulationError` taxonomy class:
the `ValueError` raised when `battery_dispatch` is not a known variant. -/
def isUnsupportedFormulationError : PyError → Bool
  | .dispatchValueError _ => true
  | _ => false

/-- Default attribute values set by `HybridDispatchOptions.__init__` before
the option loop runs (source lines 40-55).  Note `n_clusters` is annotated
`bool` in the source but its runtime value is the `int` 30, and the
dynamic type check uses the runtime type. -/
def hybridDispatchDefaults : List (String × PyVal) :=
  [ ("solver", .vStr "glpk"),
    ("cbc_timeout", .vInt 10),
    ("battery_dispatch", .vStr "simple"),
    ("include_lifecycle_count", .vBool true),
    ("grid_charging", .vBool true),
    ("n_look_ahead_periods", .vInt 48),
    ("n_roll_periods", .vInt 24),
    ("log_name", .vStr ""),
    ("is_test_start_year", .vBool false),
    ("is_test_end_year", .vBool false),
    ("use_clustering", .vBool false),
    ("n_clusters", .vInt 30),
    ("clustering_weights", .vDict []),
    ("clustering_divisions", .vDict []) ]

/-- One iteration of the option loop (source lines 58-65): `hasattr`
check, then `type(getattr(self, key)) == type(value)` check, then
`setattr`; otherwise `ValueError` (wrong type) or `NameError` (unknown
attribute). -/
def setOption (o : List (String × PyVal)) (k : String) (v : PyVal) :
    Except PyError (List (String × PyVal)) :=
  match getattrA o k with
  | some cur =>
    if pyType cur = pyType v then .ok (setattrA o k v)
    else .error (.typeValueError k)
  | none => .error (.nameError k)

/-- The option loop over the items of `dispatch_options`, in order. -/
def applyOptions : List (String × PyVal) → List (String × PyVal) →
    Except PyError (List (String × PyVal))
  | o, [] => .ok o
  | o, (k, v) :: rest =>
    match setOption o k v with
    | .ok o' => applyOptions o' rest
    | .error e => .error e

/-- Keys of `self._battery_dispatch_model_options` (source lines 67-72). -/
def batteryDispatchModelOptions : List String :=
  ["one_cycle_heuristic", "heuristic", "simple", "non_convex_LV", "convex_LV"]

/-- Model of Python's substring test `'heuristic' in s`. -/
def containsHeuristic (s : String) : Bool :=
  decide ("heuristic".data <:+: s.data)

/-- String stored under attribute `k` (used where the source reads a
`str`-typed attribute such as `battery_dispatch`). -/
def strAttr (o : List (String × PyVal)) (k : String) : String :=
  match getattrA o k with
  | some (.vStr s) => s
  | _ => ""

/-- Integer stored under attribute `k`. -/
def intAttr (o : List (String × PyVal)) (k : String) : Int :=
  match getattrA o k with
  | some (.vInt n) => n
  | _ => 0

/-- `HybridDispatchOptions.__init__`: set defaults, run the option loop
over the supplied mapping (when present), then resolve
`battery_dispatch`: known heuristic-family variants force
`n_roll_periods = 24` and `n_look_ahead_periods = n_roll_periods`;
unknown variants raise `ValueError`. -/
def mkHybridDispatchOptions (dispatch_options : Option (List (String × PyVal))) :
    Except PyError (List (String × PyVal)) :=
  match (match dispatch_options with
         | none => .ok hybridDispatchDefaults
         | some l => applyOptions hybridDispatchDefaults l :
         Except PyError (List (String × PyVal))) with
  | .error e => .error e
  | .ok o =>
    let bd := strAttr o "battery_dispatch"
    if bd ∈ batteryDispatchModelOptions then
      if containsHeuristic bd then
        .ok (setattrA (setattrA o "n_roll_periods" (.vInt 24))
              "n_look_ahead_periods" (.vInt 24))
      else .ok o
    else .error (.dispatchValueError bd)

/-- Result of a construction attempt is an error of the
`ConfigurationError` class. -/
def isConfigErrorResult : Except PyError (List (String × PyVal)) → Bool
  | .error e => isConfigurationError e
  | .ok _ => false

/-- The attribute store of a successful construction (dummy `[]` on error). -/
def okAttrs : Except PyError (List (String × PyVal)) → List (String × PyVal)
  | .ok o => o
  | .error _ => []

/-- Integer attribute of a construction result (dummy 0 on error). -/
def resIntAttr (r : Except PyError (List (String × PyVal))) (k : String) : Int :=
  intAttr (okAttrs r) k

/-! ### Embedding of the `CspPlant` pieces (`hybrid/csp_source.py`)

A `datetime.datetime` is modelled (to second precision, which is all the
source uses) by a record of calendar fields, and subtraction of two
datetimes is modelled through the proleptic Gregorian ordinal, exactly as
CPython computes it. -/

/-- Calendar datetime, the model of `datetime.datetime` to second
precision. -/
structure Dt where
  year : Nat
  month : Nat
  day : Nat
  hour : Nat
  minute : Nat
  second : Nat
deriving DecidableEq

/-- Gregorian leap-year test. -/
def isLeapYear (y : Nat) : Bool :=
  (y % 4 == 0 && y % 100 != 0) || y % 400 == 0

/-- Number of days in month `m` of year `y`. -/
def daysInMonth (y m : Nat) : Nat :=
  if m = 2 then (if isLeapYear y then 29 else 28)
  else if m = 4 ∨ m = 6 ∨ m = 9 ∨ m = 11 then 30 else 31

/-- Number of days in year `y` strictly before month `m`. -/
def daysBeforeMonth (y m : Nat) : Nat :=
  (List.range (m - 1)).foldl (fun acc i => acc + daysInMonth y (i + 1)) 0

/-- Number of days strictly before January 1 of year `y` in the proleptic
Gregorian calendar (CPython's `_days_before_year`). -/
def daysBeforeYear (y : Nat) : Nat :=
  365 * (y - 1) + (y - 1) / 4 - (y - 1) / 100 + (y - 1) / 400

/-- Proleptic Gregorian ordinal of a date (January 1 of year 1 is day 1),
CPython's `date.toordinal`. -/
def toOrdinal (dt : Dt) : Nat :=
  daysBeforeYear dt.year + daysBeforeMonth dt.year dt.month + dt.day

/-- Absolute position of a datetime, in seconds. -/
def dtTotalSeconds (dt : Dt) : Int :=
  86400 * (toOrdinal dt : Int) + 3600 * dt.hour + 60 * dt.minute + dt.second

/-- Model of datetime subtraction `a - b` followed by
`.total_seconds()` (exact, since the source only builds whole-second
datetimes). -/
def dtSub (a b : Dt) : Int :=
  dtTotalSeconds a - dtTotalSeconds b

/-- Validity of the calendar fields of a datetime (what
`datetime.datetime(...)` itself enforces). -/
def isValidDt (dt : Dt) : Bool :=
  1 ≤ dt.year && 1 ≤ dt.month && dt.month ≤ 12 &&
  1 ≤ dt.day && dt.day ≤ daysInMonth dt.year dt.month &&
  dt.hour ≤ 23 && dt.minute ≤ 59 && dt.second ≤ 59

/-- Exceptions raised by the modelled `CspPlant` code. -/
inductive CspError where
  /-- the bare `ValueError` of `CspPlant.__init__` when every required
  config key is absent. -/
  | requiredKeysValueError
  /-- `Exception('Configured time_steps_per_hour (x) is not that of
  weather file (y)')` from `CspPlant.set_weather`; carries the configured
  and the weather-file granularity, in that order. -/
  | weatherFileMismatch (configured weatherTsph : Nat)
  /-- `ValueError` from `datetime.replace` when the day is out of range
  for the month in the new year. -/
  | dayOutOfRange
  /-- `IndexError` when the weather index has fewer than two entries. -/
  | indexError
deriving DecidableEq

/-- Model of `dt.replace(year=y)`: Python re-validates the day against
the new year's month length and raises `ValueError` when it is out of
range (e.g. February 29 mapped to a non-leap year). -/
def pyReplaceYear (dt : Dt) (y : Nat) : Except CspError Dt :=
  if dt.day ≤ daysInMonth y dt.month then .ok { dt with year := y }
  else .error .dayOutOfRange

/-- The required-keys check of `CspPlant.__init__` (source lines 34-36):
`if all(key not in csp_config.keys() for key in required_keys): raise
ValueError`, over the key list of the supplied `csp_config`. -/
def cspRequiredKeys : List String :=
  ["system_capacity_kw", "solar_multiple", "tes_hours"]

/-- Required-keys validation of `CspPlant.__init__` applied to the keys
of `csp_config`. -/
def cspCheckRequiredKeys (configKeys : List String) : Except CspError Unit :=
  if cspRequiredKeys.all (fun k => !(configKeys.contains k)) then
    .error .requiredKeysValueError
  else .ok ()

/-- Weather-file granularity in time steps per hour, the model of
`int(1 / (weather_timedelta.total_seconds() / 3600))` for a
whole-second timestep (exact for the timesteps that divide an hour). -/
def weatherTimeStepsPerHour (timestepSeconds : Nat) : Nat :=
  3600 / timestepSeconds

/-- `CspPlant.set_weather` (source lines 142-160): derive the weather
granularity from the first two index entries, raise on mismatch with the
configured `time_steps_per_hour`, otherwise normalise the start/end years
to the weather file's year, extend an empty range by one timestep, and
return the window slice bounds (in absolute seconds) used to select
`weather_df_part`; the upper bound is `end - timestep` because times in
the weather file mark the start of their timestep. -/
def set_weather (weatherIndex : List Dt) (sscTimeStepsPerHour : Nat)
    (startDt endDt : Dt) : Except CspError (Int × Int) :=
  match weatherIndex with
  | i0 :: i1 :: _ =>
    let wtdSeconds : Int := dtSub i1 i0
    let wtsph : Nat := weatherTimeStepsPerHour wtdSeconds.toNat
    if wtsph ≠ sscTimeStepsPerHour then
      .error (.weatherFileMismatch sscTimeStepsPerHour wtsph)
    else
      match (if startDt.year ≠ i0.year then do
               let s ← pyReplaceYear startDt i0.year
               let e ← pyReplaceYear endDt i0.year
               pure (s, e)
             else pure (startDt, endDt) : Except CspError (Dt × Dt)) with
      | .error e => .error e
      | .ok (s, e) =>
        let sSec := dtTotalSeconds s
        let eSec := if dtTotalSeconds e ≤ sSec then sSec + wtdSeconds
                    else dtTotalSeconds e
        .ok (sSec, eSec - wtdSeconds)
  | _ => .error .indexError

/-- `CspPlant.seconds_since_newyear` (source lines 254-259): substitute
the non-leap year 2009 with `dt.replace(year=2009)`, subtract
`datetime(2009, 1, 1)`, and truncate the total seconds to an integer. -/
def seconds_since_newyear (dt : Dt) : Except CspError Int :=
  match pyReplaceYear dt 2009 with
  | .error e => .error e
  | .ok d => .ok (dtSub d ⟨2009, 1, 1, 0, 0, 0⟩)

/-- Seconds from January 1 00:00:00 to the given month/day/time within
the non-leap year 2009 (the value the spec claims
`seconds_since_newyear` returns). -/
def secondsIntoNonLeapYear (m d h mi s : Nat) : Int :=
  86400 * ((daysBeforeMonth 2009 m : Int) + d - 1) + 3600 * h + 60 * mi + s

/-! ### Lemmas about the attribute store -/

theorem getattrA_setattrA_self (o : List (String × PyVal)) (k : String) (v : PyVal) :
    getattrA (setattrA o k v) k = (getattrA o k).map (fun _ => v) := by
  induction o with
  | nil => rfl
  | cons hd tl ih =>
    obtain ⟨k₁, v₁⟩ := hd
    by_cases h : k₁ = k <;> simp [getattrA, setattrA, h, ih]

theorem getattrA_setattrA_ne (o : List (String × PyVal)) (k k' : String) (v : PyVal)
    (h : k' ≠ k) : getattrA (setattrA o k v) k' = getattrA o k' := by
  induction o with
  | nil => rfl
  | cons hd tl ih =>
    obtain ⟨k₁, v₁⟩ := hd
    by_cases h1 : k₁ = k
    · subst h1
      simp [getattrA, setattrA, Ne.symm h, ih]
    · by_cases h2 : k₁ = k' <;> simp [getattrA, setattrA, h, h1, h2, ih]

theorem setOption_ok_self {o o' : List (String × PyVal)} {k : String} {v : PyVal}
    (h : setOption o k v = .ok o') : getattrA o' k = some v := by
  unfold setOption at h
  cases hg : getattrA o k with
  | none => rw [hg] at h; exact absurd h (by simp)
  | some cur =>
    rw [hg] at h
    by_cases hty : pyType cur = pyType v
    · simp [hty] at h
      rw [← h, getattrA_setattrA_self, hg]
      rfl
    · simp [hty] at h

theorem setOption_ok_ne {o o' : List (String × PyVal)} {k : String} {v : PyVal}
    (h : setOption o k v = .ok o') (k' : String) (hne : k' ≠ k) :
    getattrA o' k' = getattrA o k' := by
  unfold setOption at h
  cases hg : getattrA o k with
  | none => rw [hg] at h; exact absurd h (by simp)
  | some cur =>
    rw [hg] at h
    by_cases hty : pyType cur = pyType v
    · simp [hty] at h
      rw [← h, getattrA_setattrA_ne _ _ _ _ hne]
    · simp [hty] at h

theorem setOption_ok_type {o o' : List (String × PyVal)} {k : String} {v : PyVal}
    (h : setOption o k v = .ok o') (k' : String) :
    (getattrA o' k').map pyType = (getattrA o k').map pyType := by
  by_cases hne : k' = k
  · subst hne
    rw [setOption_ok_self h]
    unfold setOption at h
    cases hg : getattrA o k' with
    | none => rw [hg] at h; exact absurd h (by simp)
    | some cur =>
      rw [hg] at h
      by_cases hty : pyType cur = pyType v
      · simp [hty]
      · simp [hty] at h
  · rw [setOption_ok_ne h k' hne]

theorem setOption_error_config {o : List (String × PyVal)} {k : String} {v : PyVal}
    {e : PyError} (h : setOption o k v = .error e) : isConfigurationError e = true := by
  unfold setOption at h
  cases hg : getattrA o k with
  | none =>
    rw [hg] at h
    cases h
    rfl
  | some cur =>
    rw [hg] at h
    by_cases hty : pyType cur = pyType v
    · simp [hty] at h
    · simp [hty] at h
      cases h
      rfl

theorem setOption_unknown {o : List (String × PyVal)} {k : String} (v : PyVal)
    (h : getattrA o k = none) : setOption o k v = .error (.nameError k) := by
  unfold setOption
  rw [h]

/-! ### Lemmas about the option loop -/

theorem applyOptions_ok_type {l : List (String × PyVal)} :
    ∀ {o o' : List (String × PyVal)}, applyOptions o l = .ok o' →
    ∀ k, (getattrA o' k).map pyType = (getattrA o k).map pyType := by
  induction l with
  | nil =>
    intro o o' h k
    cases h
    rfl
  | cons hd tl ih =>
    intro o o' h k
    obtain ⟨k₁, v₁⟩ := hd
    unfold applyOptions at h
    cases hs : setOption o k₁ v₁ with
    | error e => rw [hs] at h; exact absurd h (by simp)
    | ok o₁ =>
      rw [hs] at h
      rw [ih h k, setOption_ok_type hs k]

theorem applyOptions_ok_notin {l : List (String × PyVal)} {k : String} :
    ∀ {o o' : List (String × PyVal)}, (∀ kv ∈ l, kv.1 ≠ k) →
    applyOptions o l = .ok o' → getattrA o' k = getattrA o k := by
  induction l with
  | nil =>
    intro o o' _ h
    cases h
    rfl
  | cons hd tl ih =>
    intro o o' hno h
    obtain ⟨k₁, v₁⟩ := hd
    unfold applyOptions at h
    cases hs : setOption o k₁ v₁ with
    | error e => rw [hs] at h; exact absurd h (by simp)
    | ok o₁ =>
      rw [hs] at h
      have hk₁ : k₁ ≠ k := hno (k₁, v₁) (by simp)
      rw [ih (fun kv hkv => hno kv (by simp [hkv])) h,
        setOption_ok_ne hs k (Ne.symm hk₁)]

theorem applyOptions_error_config {l : List (String × PyVal)} :
    ∀ {o : List (String × PyVal)} {e : PyError}, applyOptions o l = .error e →
    isConfigurationError e = true := by
  induction l with
  | nil =>
    intro o e h
    exact absurd h (by simp [applyOptions])
  | cons hd tl ih =>
    intro o e h
    obtain ⟨k₁, v₁⟩ := hd
    unfold applyOptions at h
    cases hs : setOption o k₁ v₁ with
    | error e₁ =>
      rw [hs] at h
      cases h
      exact setOption_error_config hs
    | ok o₁ =>
      rw [hs] at h
      exact ih h

theorem applyOptions_unknown {l : List (String × PyVal)} {k : String} {v : PyVal} :
    ∀ {o : List (String × PyVal)}, (k, v) ∈ l → getattrA o k = none →
    ∃ e, applyOptions o l = .error e := by
  induction l with
  | nil => intro o hmem _; exact absurd hmem (by simp)
  | cons hd tl ih =>
    intro o hmem hnone
    obtain ⟨k₁, v₁⟩ := hd
    unfold applyOptions
    cases hs : setOption o k₁ v₁ with
    | error e₁ => exact ⟨e₁, rfl⟩
    | ok o₁ =>
      rcases List.mem_cons.mp hmem with heq | hmem'
      · obtain ⟨hk, hv⟩ := Prod.mk.injEq .. ▸ heq
        subst hk
        rw [setOption_unknown v₁ hnone] at hs
        exact absurd hs (by simp)
      · have hnone₁ : getattrA o₁ k = none := by
          have := setOption_ok_type hs k
          rw [hnone] at this
          simpa using this
        exact ih hmem' hnone₁

theorem applyOptions_type_mismatch {l : List (String × PyVal)} {k : String} {v : PyVal}
    {t : PyType} :
    ∀ {o : List (String × PyVal)}, (k, v) ∈ l →
    (getattrA o k).map pyType = some t → t ≠ pyType v →
    ∃ e, applyOptions o l = .error e := by
  induction l with
  | nil => intro o hmem _ _; exact absurd hmem (by simp)
  | cons hd tl ih =>
    intro o hmem hty hne
    obtain ⟨k₁, v₁⟩ := hd
    unfold applyOptions
    cases hs : setOption o k₁ v₁ with
    | error e₁ => exact ⟨e₁, rfl⟩
    | ok o₁ =>
      rcases List.mem_cons.mp hmem with heq | hmem'
      · obtain ⟨hk, hv⟩ := Prod.mk.injEq .. ▸ heq
        subst hk; subst hv
        cases hg : getattrA o k with
        | none => rw [hg] at hty; exact absurd hty (by simp)
        | some cur =>
          rw [hg] at hty
          simp at hty
          have hcc : ¬ pyType cur = pyType v := by rw [hty]; exact hne
          unfold setOption at hs
          rw [hg] at hs
          simp [hcc] at hs
      · have hty₁ : (getattrA o₁ k).map pyType = some t := by
          rw [setOption_ok_type hs k, hty]
        exact ih hmem' hty₁ hne

theorem applyOptions_mem_nodup {l : List (String × PyVal)} {k : String} {v : PyVal} :
    ∀ {o o' : List (String × PyVal)}, (l.map Prod.fst).Nodup → (k, v) ∈ l →
    applyOptions o l = .ok o' → getattrA o' k = some v := by
  induction l with
  | nil => intro o o' _ hmem _; exact absurd hmem (by simp)
  | cons hd tl ih =>
    intro o o' hnd hmem h
    obtain ⟨k₁, v₁⟩ := hd
    unfold applyOptions at h
    cases hs : setOption o k₁ v₁ with
    | error e₁ => rw [hs] at h; exact absurd h (by simp)
    | ok o₁ =>
      rw [hs] at h
      simp only [List.map_cons, List.nodup_cons] at hnd
      rcases List.mem_cons.mp hmem with heq | hmem'
      · obtain ⟨hk, hv⟩ := Prod.mk.injEq .. ▸ heq
        subst hk; subst hv
        have hrest : ∀ kv ∈ tl, kv.1 ≠ k := by
          intro kv hkv hkk
          exact hnd.1 (hkk ▸ List.mem_map_of_mem Prod.fst hkv)
        rw [applyOptions_ok_notin hrest h, setOption_ok_self hs]
      · exact ih hnd.2 hmem' h

theorem mkHybridDispatchOptions_error_of_apply {l : List (String × PyVal)} {e : PyError}
    (h : applyOptions hybridDispatchDefaults l = .error e) :
    mkHybridDispatchOptions (some l) = .error e := by
  simp [mkHybridDispatchOptions, h]

theorem mkHybridDispatchOptions_ok_cases {l o : List (String × PyVal)}
    (h : mkHybridDispatchOptions (some l) = .ok o) :
    ∃ o₁, applyOptions hybridDispatchDefaults l = .ok o₁ ∧
      strAttr o₁ "battery_dispatch" ∈ batteryDispatchModelOptions ∧
      ((containsHeuristic (strAttr o₁ "battery_dispatch") = true ∧
        o = setattrA (setattrA o₁ "n_roll_periods" (.vInt 24))
              "n_look_ahead_periods" (.vInt 24)) ∨
       (containsHeuristic (strAttr o₁ "battery_dispatch") = false ∧ o = o₁)) := by
  simp only [mkHybridDispatchOptions] at h
  cases happ : applyOptions hybridDispatchDefaults l with
  | error e => rw [happ] at h; simp at h
  | ok o₁ =>
    rw [happ] at h
    by_cases hmem : strAttr o₁ "battery_dispatch" ∈ batteryDispatchModelOptions
    · by_cases hheur : containsHeuristic (strAttr o₁ "battery_dispatch") = true
      · simp [hmem, hheur] at h
        exact ⟨o₁, rfl, hmem, Or.inl ⟨hheur, h.symm⟩⟩
      · simp [hmem, hheur] at h
        exact ⟨o₁, rfl, hmem, Or.inr ⟨Bool.not_eq_true _ ▸ hheur, h.symm⟩⟩
    · simp [hmem] at h

theorem applyOptions_int_attr_exists {l o₁ : List (String × PyVal)} (k : String)
    (hok : applyOptions hybridDispatchDefaults l = .ok o₁)
    (hd : (getattrA hybridDispatchDefaults k).map pyType = some .int) :
    ∃ n : Int, getattrA o₁ k = some (.vInt n) := by
  have hty := applyOptions_ok_type hok k
  rw [hd] at hty
  cases hg : getattrA o₁ k with
  | none => rw [hg] at hty; simp at hty
  | some w =>
    rw [hg] at hty
    cases w with
    | vInt n => exact ⟨n, rfl⟩
    | vStr s => simp [pyType] at hty
    | vBool b => simp [pyType] at hty
    | vDict d => simp [pyType] at hty

theorem heuristic_override_intAttrs {o₁ : List (String × PyVal)} {a b : Int}
    (hroll : getattrA o₁ "n_roll_periods" = some (.vInt a))
    (hlook : getattrA o₁ "n_look_ahead_periods" = some (.vInt b)) :
    intAttr (setattrA (setattrA o₁ "n_roll_periods" (.vInt 24))
        "n_look_ahead_periods" (.vInt 24)) "n_roll_periods" = 24 ∧
    intAttr (setattrA (setattrA o₁ "n_roll_periods" (.vInt 24))
        "n_look_ahead_periods" (.vInt 24)) "n_look_ahead_periods" = 24 := by
  constructor
  · unfold intAttr
    rw [getattrA_setattrA_ne _ _ _ _ (by decide), getattrA_setattrA_self, hroll]
    rfl
  · unfold intAttr
    rw [getattrA_setattrA_self, getattrA_setattrA_ne _ _ _ _ (by decide), hlook]
    rfl

/-! ### Claim theorems -/

/-- C1, counterexample: the mapping `{n_look_ahead_periods: 12}` is
accepted by the resolver (default `battery_dispatch = 'simple'`, a
non-heuristic variant), yet the resulting configuration has
`n_look_ahead_periods = 12 < 24 = n_roll_periods`: the resolver never
enforces the claimed invariant against user overrides. -/
theorem look_ahead_ge_roll_counterexample :
    (mkHybridDispatchOptions (some [("n_look_ahead_periods", PyVal.vInt 12)])).isOk
      = true ∧
    resIntAttr (mkHybridDispatchOptions (some [("n_look_ahead_periods", PyVal.vInt 12)]))
        "n_look_ahead_periods" <
      resIntAttr (mkHybridDispatchOptions (some [("n_look_ahead_periods", PyVal.vInt 12)]))
        "n_roll_periods" := by
  decide

/-- C1 (amended): for every accepted `dispatch_options` mapping that does
not supply a value for `n_look_ahead_periods` or `n_roll_periods`, the
resulting configuration satisfies
`n_look_ahead_periods >= n_roll_periods` (48 >= 24 from the defaults, or
24 = 24 after the heuristic override). -/
theorem look_ahead_ge_roll_of_no_override
    (dopts : Option (List (String × PyVal))) (o : List (String × PyVal))
    (hok : mkHybridDispatchOptions dopts = .ok o)
    (hno : ∀ l, dopts = some l → ∀ kv ∈ l,
      kv.1 ≠ "n_look_ahead_periods" ∧ kv.1 ≠ "n_roll_periods") :
    intAttr o "n_roll_periods" ≤ intAttr o "n_look_ahead_periods" := by
  cases dopts with
  | none =>
    have h2 : (Except.ok hybridDispatchDefaults :
        Except PyError (List (String × PyVal))) = .ok o := hok
    cases h2
    decide
  | some l =>
    obtain ⟨o₁, happ, _, hcase⟩ := mkHybridDispatchOptions_ok_cases hok
    have hroll : getattrA o₁ "n_roll_periods" = some (.vInt 24) := by
      rw [applyOptions_ok_notin (fun kv hkv => (hno l rfl kv hkv).2) happ]
      rfl
    have hlook : getattrA o₁ "n_look_ahead_periods" = some (.vInt 48) := by
      rw [applyOptions_ok_notin (fun kv hkv => (hno l rfl kv hkv).1) happ]
      rfl
    rcases hcase with ⟨_, rfl⟩ | ⟨_, rfl⟩
    · obtain ⟨h1, h2⟩ := heuristic_override_intAttrs hroll hlook
      rw [h1, h2]
    · simp [intAttr, hroll, hlook]

/-- C1 witness: the mapping `{grid_charging: false}` (no override of the
two window fields) is accepted and satisfies the amended invariant. -/
theorem look_ahead_ge_roll_of_no_override_witness :
    resIntAttr (mkHybridDispatchOptions (some [("grid_charging", PyVal.vBool false)]))
        "n_roll_periods" ≤
      resIntAttr (mkHybridDispatchOptions (some [("grid_charging", PyVal.vBool false)]))
        "n_look_ahead_periods" := by
  have h : mkHybridDispatchOptions (some [("grid_charging", PyVal.vBool false)]) =
      .ok (okAttrs (mkHybridDispatchOptions
        (some [("grid_charging", PyVal.vBool false)]))) := rfl
  exact look_ahead_ge_roll_of_no_override _ _ h
    (by intro l hl; cases hl; decide)

/-- C2: for every mapping (with distinct keys, as a Python dict has)
whose `battery_dispatch` entry is a heuristic-family variant, a
successful construction yields `n_roll_periods = n_look_ahead_periods =
24`, regardless of any user-supplied values for those two fields. -/
theorem heuristic_forces_one_day_periods
    (l : List (String × PyVal)) (bd : String) (o : List (String × PyVal))
    (hnd : (l.map Prod.fst).Nodup)
    (hmem : ("battery_dispatch", PyVal.vStr bd) ∈ l)
    (hbd : bd = "heuristic" ∨ bd = "one_cycle_heuristic")
    (hok : mkHybridDispatchOptions (some l) = .ok o) :
    intAttr o "n_roll_periods" = 24 ∧ intAttr o "n_look_ahead_periods" = 24 := by
  obtain ⟨o₁, happ, _, hcase⟩ := mkHybridDispatchOptions_ok_cases hok
  have hbdv : getattrA o₁ "battery_dispatch" = some (.vStr bd) :=
    applyOptions_mem_nodup hnd hmem happ
  have hstr : strAttr o₁ "battery_dispatch" = bd := by
    simp [strAttr, hbdv]
  have hheur : containsHeuristic (strAttr o₁ "battery_dispatch") = true := by
    rw [hstr]
    rcases hbd with rfl | rfl <;> decide
  rcases hcase with ⟨_, rfl⟩ | ⟨hfalse, _⟩
  · obtain ⟨a, hroll⟩ := applyOptions_int_attr_exists "n_roll_periods" happ rfl
    obtain ⟨b, hlook⟩ := applyOptions_int_attr_exists "n_look_ahead_periods" happ rfl
    exact heuristic_override_intAttrs hroll hlook
  · rw [hheur] at hfalse
    exact absurd hfalse (by simp)

/-- The mapping of Scenario 2: `one_cycle_heuristic` together with
user-supplied 48/48 window overrides. -/
def heurOverrideOpts : List (String × PyVal) :=
  [("battery_dispatch", .vStr "one_cycle_heuristic"),
   ("n_roll_periods", .vInt 48),
   ("n_look_ahead_periods", .vInt 48)]

/-- C2 witness: `{battery_dispatch: 'one_cycle_heuristic',
n_roll_periods: 48, n_look_ahead_periods: 48}` is accepted (not an
error) and both window fields come out as 24. -/
theorem heuristic_forces_one_day_periods_witness :
    resIntAttr (mkHybridDispatchOptions (some heurOverrideOpts)) "n_roll_periods" = 24 ∧
    resIntAttr (mkHybridDispatchOptions (some heurOverrideOpts))
      "n_look_ahead_periods" = 24 ∧
    (mkHybridDispatchOptions (some heurOverrideOpts)).isOk = true := by
  have h : mkHybridDispatchOptions (some heurOverrideOpts) =
      .ok (okAttrs (mkHybridDispatchOptions (some heurOverrideOpts))) := rfl
  have h2 := heuristic_forces_one_day_periods heurOverrideOpts "one_cycle_heuristic" _
    (by decide) (by decide) (Or.inr rfl) h
  exact ⟨h2.1, h2.2, rfl⟩

/-- C3: a `dispatch_options` mapping containing a key that is not a
recognized option (not an attribute set by the defaults) makes
construction fail, at construction time, with an error of the
`ConfigurationError` class (the `NameError` of the option loop, or a
type-mismatch `ValueError` of an earlier entry). -/
theorem unknown_key_configuration_error
    (l : List (String × PyVal)) (k : String) (v : PyVal)
    (hmem : (k, v) ∈ l) (hk : getattrA hybridDispatchDefaults k = none) :
    isConfigErrorResult (mkHybridDispatchOptions (some l)) = true := by
  obtain ⟨e, he⟩ := applyOptions_unknown hmem hk
  rw [mkHybridDispatchOptions_error_of_apply he]
  exact applyOptions_error_config he

/-- C3 witness: the mapping `{not_a_real_option: 1}` of Scenario 3. -/
theorem unknown_key_configuration_error_witness :
    isConfigErrorResult
      (mkHybridDispatchOptions (some [("not_a_real_option", PyVal.vInt 1)])) = true :=
  unknown_key_configuration_error _ "not_a_real_option" (PyVal.vInt 1)
    (by decide) rfl

/-- C4: a `dispatch_options` mapping containing a recognized key whose
value's runtime type differs from the type of the option's default value
makes construction fail with an error of the `ConfigurationError` class;
the value is never silently coerced or accepted. -/
theorem type_mismatch_configuration_error
    (l : List (String × PyVal)) (k : String) (v cur : PyVal)
    (hmem : (k, v) ∈ l)
    (hcur : getattrA hybridDispatchDefaults k = some cur)
    (hty : pyType cur ≠ pyType v) :
    isConfigErrorResult (mkHybridDispatchOptions (some l)) = true := by
  obtain ⟨e, he⟩ := applyOptions_type_mismatch hmem
    (by rw [hcur]; rfl) hty
  rw [mkHybridDispatchOptions_error_of_apply he]
  exact applyOptions_error_config he

/-- C4 witness: the int-typed option `cbc_timeout` given a `str` value. -/
theorem type_mismatch_configuration_error_witness :
    isConfigErrorResult
      (mkHybridDispatchOptions (some [("cbc_timeout", PyVal.vStr "10")])) = true :=
  type_mismatch_configuration_error _ "cbc_timeout" (PyVal.vStr "10")
    (PyVal.vInt 10) (by decide) rfl (by decide)

/-- C5: when the option loop itself succeeds and the mapping's
`battery_dispatch` entry (keys distinct, as in a Python dict) is a string
outside the known set of dispatch classes, construction fails with the
`UnsupportedFormulationError`-class `ValueError`, before any formulation
is built. -/
theorem unsupported_battery_dispatch_fails
    (l : List (String × PyVal)) (bd : String) (o : List (String × PyVal))
    (hnd : (l.map Prod.fst).Nodup)
    (hmem : ("battery_dispatch", PyVal.vStr bd) ∈ l)
    (hbd : bd ∉ batteryDispatchModelOptions)
    (hok : applyOptions hybridDispatchDefaults l = .ok o) :
    mkHybridDispatchOptions (some l) = .error (.dispatchValueError bd) ∧
    isUnsupportedFormulationError (.dispatchValueError bd) = true := by
  have hbdv : getattrA o "battery_dispatch" = some (.vStr bd) :=
    applyOptions_mem_nodup hnd hmem hok
  have hstr : strAttr o "battery_dispatch" = bd := by
    simp [strAttr, hbdv]
  refine ⟨?_, rfl⟩
  simp [mkHybridDispatchOptions, hok, hstr, hbd]

/-- C5 witness: `{battery_dispatch: 'bogus'}` passes the option loop (it
is a `str` for a `str`-typed option) and fails with the unsupported-
formulation error. -/
theorem unsupported_battery_dispatch_fails_witness :
    mkHybridDispatchOptions (some [("battery_dispatch", PyVal.vStr "bogus")]) =
      .error (.dispatchValueError "bogus") ∧
    isUnsupportedFormulationError (.dispatchValueError "bogus") = true :=
  unsupported_battery_dispatch_fails _ "bogus" _ (by decide) (by decide) (by decide)
    (rfl :
      applyOptions hybridDispatchDefaults [("battery_dispatch", PyVal.vStr "bogus")] =
      .ok (okAttrs (applyOptions hybridDispatchDefaults
        [("battery_dispatch", PyVal.vStr "bogus")])))

/-- C7: whenever the mapping is absent or contains no `cbc_timeout`
entry, a successful construction leaves the solver timeout at its
default of 10 seconds. -/
theorem default_cbc_timeout_ten
    (dopts : Option (List (String × PyVal))) (o : List (String × PyVal))
    (hok : mkHybridDispatchOptions dopts = .ok o)
    (hno : ∀ l, dopts = some l → ∀ kv ∈ l, kv.1 ≠ "cbc_timeout") :
    getattrA o "cbc_timeout" = some (.vInt 10) := by
  cases dopts with
  | none =>
    have h2 : (Except.ok hybridDispatchDefaults :
        Except PyError (List (String × PyVal))) = .ok o := hok
    cases h2
    rfl
  | some l =>
    obtain ⟨o₁, happ, _, hcase⟩ := mkHybridDispatchOptions_ok_cases hok
    have hcbc : getattrA o₁ "cbc_timeout" = some (.vInt 10) := by
      rw [applyOptions_ok_notin (hno l rfl) happ]
      rfl
    rcases hcase with ⟨_, rfl⟩ | ⟨_, rfl⟩
    · rw [getattrA_setattrA_ne _ _ _ _ (by decide),
        getattrA_setattrA_ne _ _ _ _ (by decide), hcbc]
    · exact hcbc

/-- C7 witness: construction with no `dispatch_options` argument. -/
theorem default_cbc_timeout_ten_witness :
    getattrA (okAttrs (mkHybridDispatchOptions none)) "cbc_timeout" =
      some (.vInt 10) :=
  default_cbc_timeout_ten none _ rfl (by intro l hl; cases hl)

/-- C8: the option loop's type check is exact runtime-type equality, not
subtyping: a `bool` value for the int-typed `cbc_timeout` and an `int`
value for the bool-typed `grid_charging` are both rejected with the
type-mismatch `ValueError`, while matching runtime types are accepted. -/
theorem exact_runtime_type_equality :
    mkHybridDispatchOptions (some [("cbc_timeout", PyVal.vBool true)]) =
      .error (.typeValueError "cbc_timeout") ∧
    mkHybridDispatchOptions (some [("grid_charging", PyVal.vInt 1)]) =
      .error (.typeValueError "grid_charging") ∧
    (mkHybridDispatchOptions (some [("cbc_timeout", PyVal.vInt 60)])).isOk = true ∧
    (mkHybridDispatchOptions (some [("grid_charging", PyVal.vBool false)])).isOk
      = true := by
  exact ⟨rfl, rfl, rfl, rfl⟩

/-- C6: whenever the weather file's granularity derived from its first
two index timestamps differs from the configured `time_steps_per_hour`,
`set_weather` fails with the mismatch exception — which carries both
granularities — before the weather window is built. -/
theorem set_weather_granularity_mismatch_fails
    (i0 i1 : Dt) (rest : List Dt) (ssc : Nat) (s e : Dt)
    (hm : weatherTimeStepsPerHour (dtSub i1 i0).toNat ≠ ssc) :
    set_weather (i0 :: i1 :: rest) ssc s e =
      .error (.weatherFileMismatch ssc
        (weatherTimeStepsPerHour (dtSub i1 i0).toNat)) := by
  simp [set_weather, hm]

/-- C6 witness: half-hourly weather data (two index entries 30 minutes
apart, so 2 steps per hour) against a configured 1 step per hour. -/
theorem set_weather_granularity_mismatch_fails_witness :
    set_weather [⟨2009, 1, 1, 0, 0, 0⟩, ⟨2009, 1, 1, 0, 30, 0⟩] 1
        ⟨1900, 1, 1, 0, 0, 0⟩ ⟨1900, 1, 1, 0, 0, 0⟩ =
      .error (.weatherFileMismatch 1 2) :=
  set_weather_granularity_mismatch_fails _ _ _ _ _ _ (by decide)

/-- C9: the required-keys validation of `CspPlant.__init__` passes
exactly when at least one of the three required keys is present: it
rejects a `csp_config` only when all three of `system_capacity_kw`,
`solar_multiple` and `tes_hours` are absent. -/
theorem csp_required_keys_one_suffices (ks : List String) :
    cspCheckRequiredKeys ks = .ok () ↔
      ("system_capacity_kw" ∈ ks ∨ "solar_multiple" ∈ ks ∨ "tes_hours" ∈ ks) := by
  have hiff : ∀ a : String, ks.contains a = false ↔ a ∉ ks := fun a => by
    simp [List.contains]
  unfold cspCheckRequiredKeys cspRequiredKeys
  split_ifs with h
  · simp only [List.all_cons, List.all_nil, Bool.and_eq_true, Bool.not_eq_true',
      and_true] at h
    obtain ⟨h1, h2, h3⟩ := h
    rw [hiff] at h1 h2 h3
    constructor
    · intro he
      exact absurd he (by simp)
    · intro hm
      rcases hm with hm | hm | hm
      · exact absurd hm h1
      · exact absurd hm h2
      · exact absurd hm h3
  · simp only [List.all_cons, List.all_nil, Bool.and_eq_true, Bool.not_eq_true',
      and_true] at h
    constructor
    · intro _
      by_contra hc
      push_neg at hc
      exact h ⟨(hiff _).mpr hc.1, (hiff _).mpr hc.2.1, (hiff _).mpr hc.2.2⟩
    · intro _
      rfl

/-- C9 witness: a config whose only key among the required three is
`tes_hours` passes the required-keys validation. -/
theorem csp_required_keys_one_suffices_witness :
    cspCheckRequiredKeys ["tes_hours"] = .ok () :=
  (csp_required_keys_one_suffices ["tes_hours"]).mpr (by simp)

/-- C10, counterexample: February 29 of the leap year 2020 is a valid
datetime, yet `seconds_since_newyear` does not return a value there:
`dt.replace(year=2009)` raises `ValueError` because day 29 is out of
range for February of the non-leap year 2009. -/
theorem seconds_since_newyear_feb29_counterexample :
    isValidDt ⟨2020, 2, 29, 0, 0, 0⟩ = true ∧
    seconds_since_newyear ⟨2020, 2, 29, 0, 0, 0⟩ = .error .dayOutOfRange :=
  ⟨rfl, rfl⟩

/-- C10 (amended): for any valid datetime other than a February 29,
`seconds_since_newyear` returns the seconds elapsed from January 1
00:00:00 to that month/day/time in the non-leap year 2009, and its
result (value or exception) is invariant under the input's year field. -/
theorem seconds_since_newyear_year_invariant
    (dt dt' : Dt)
    (hm : dt'.month = dt.month) (hd : dt'.day = dt.day) (hh : dt'.hour = dt.hour)
    (hmi : dt'.minute = dt.minute) (hs : dt'.second = dt.second)
    (hv : isValidDt dt = true)
    (h29 : ¬(dt.month = 2 ∧ dt.day = 29)) :
    seconds_since_newyear dt =
      .ok (secondsIntoNonLeapYear dt.month dt.day dt.hour dt.minute dt.second) ∧
    seconds_since_newyear dt' = seconds_since_newyear dt := by
  constructor
  · obtain ⟨y, m, d, h, mi, s⟩ := dt
    show seconds_since_newyear (Dt.mk y m d h mi s) =
      .ok (secondsIntoNonLeapYear m d h mi s)
    simp only [isValidDt, Bool.and_eq_true, decide_eq_true_eq] at hv
    have hdm : d ≤ daysInMonth y m := hv.1.1.1.2
    have hle : d ≤ daysInMonth 2009 m := by
      by_cases hm2 : m = 2
      · subst hm2
        have hd29 : d ≠ 29 := fun hc => h29 ⟨rfl, hc⟩
        have hdm29 : daysInMonth y 2 ≤ 29 := by
          unfold daysInMonth
          split_ifs <;> omega
        have h28 : daysInMonth 2009 2 = 28 := rfl
        omega
      · have hsame : daysInMonth y m = daysInMonth 2009 m := by
          unfold daysInMonth
          simp [hm2]
        rw [← hsame]
        exact hdm
    have hrep : pyReplaceYear (Dt.mk y m d h mi s) 2009 =
        .ok (Dt.mk 2009 m d h mi s) := if_pos hle
    simp only [seconds_since_newyear, hrep]
    simp only [dtSub, dtTotalSeconds, toOrdinal, secondsIntoNonLeapYear,
      show daysBeforeMonth 2009 1 = 0 from rfl]
    push_cast
    ring_nf
  · have hrec : ({ dt' with year := 2009 } : Dt) = { dt with year := 2009 } := by
      obtain ⟨y, m, d, h, mi, s⟩ := dt
      obtain ⟨y', m', d', h', mi', s'⟩ := dt'
      simp only at hm hd hh hmi hs
      simp [hm, hd, hh, hmi, hs]
    simp only [seconds_since_newyear, pyReplaceYear]
    rw [hrec, hm, hd]

/-- C10 witness: March 15 12:30:05 gives the same value in 2020 (a leap
year) and in 1999, namely its seconds-into-2009 count. -/
theorem seconds_since_newyear_year_invariant_witness :
    seconds_since_newyear ⟨2020, 3, 15, 12, 30, 5⟩ =
      .ok (secondsIntoNonLeapYear 3 15 12 30 5) ∧
    seconds_since_newyear ⟨1999, 3, 15, 12, 30, 5⟩ =
      seconds_since_newyear ⟨2020, 3, 15, 12, 30, 5⟩ :=
  seconds_since_newyear_year_invariant ⟨2020, 3, 15, 12, 30, 5⟩
    ⟨1999, 3, 15, 12, 30, 5⟩ rfl rfl rfl rfl rfl (by decide) (by decide)

end HOPP

